import Mathlib

/-!
Shallow embedding of the parameter-derivation core of `rust-fil-proofs`
(`filecoin-proofs/src/parameters.rs`, `storage-proofs/core/src/crypto/mod.rs`,
`filecoin-proofs/src/types/mod.rs`) and proofs about it.

Modelling conventions: Rust `usize` / `u64` values are `Nat` (no claim here
depends on wrap-around); byte arrays (`[u8; N]`, digests) are `List Nat` of
byte values; fallible Rust code returns an explicit `Outcome` that separates
`Ok`, recoverable `Err` values, panics (process aborts, e.g. `expect` or
division by zero) and divergence (a `while` loop that never exits).
-/

namespace FilProofs

/-- Result of running a fallible Rust computation: a success, a recoverable
error returned to the caller, a panic (process abort) carrying the panic
message, or divergence (an infinite loop). -/
inductive Outcome (ε α : Type) where
  | ok (a : α)
  | err (e : ε)
  | panic (msg : String)
  | diverge
  deriving DecidableEq

/-- `storage_proofs::porep::stacked::LayerChallenges`: a layer count together
with a per-layer challenge count (`max_count`).  The struct itself lives
outside the visible sources; its two fields are exactly the two arguments of
`LayerChallenges::new(layers, count)` as called from `select_challenges`. -/
structure LayerChallenges where
  layers : Nat
  max_count : Nat
  deriving DecidableEq

/-- `LayerChallenges::new(layers, max_count)`. -/
def LayerChallenges.new (layers max_count : Nat) : LayerChallenges :=
  ⟨layers, max_count⟩

/-- `LayerChallenges::challenges_count_all`.  The method body is outside the
visible sources, so its behaviour has to be reconstructed.  The repository's
own test `partition_layer_challenges_test` (in `parameters.rs`, which IS in
the visible sources) asserts
`select_challenges(1, 12, 11)…challenges_count_all() == 12`,
`select_challenges(2, 12, 11)… == 6` and `select_challenges(4, 12, 11)… == 3`;
given the loop in `select_challenges` these assertions hold only when
`challenges_count_all` returns the per-layer count alone, so it is modelled
as `max_count`.  (The spec's data-model sentence claims the method returns
`layers × per-layer count`; that formula is contradicted both by this test
and by the spec's own concrete case `select_challenges(2,12,11) → 6`, see
`LayerChallenges.spec_total_challenges` below.) -/
def LayerChallenges.challenges_count_all (lc : LayerChallenges) : Nat :=
  lc.max_count

/-- The spec's words for the derived total of a `LayerChallengePlan`
("layer count × per-layer count"), kept as a separate, clearly named
definition so it can be compared against `challenges_count_all`. -/
def LayerChallenges.spec_total_challenges (lc : LayerChallenges) : Nat :=
  lc.layers * lc.max_count

/-- The `while` loop of `select_challenges` in `parameters.rs`, as a fueled
recursion: starting from `count`, keep incrementing while
`partitions * guess.challenges_count_all() < minimum_total_challenges`.
`none` models the loop never exiting (it consumed all the fuel; the fuel
supplied by `select_challenges` below is shown sufficient whenever
`partitions ≥ 1`). -/
def select_challenges_loop (partitions minimum_total_challenges layers : Nat) :
    Nat → Nat → Option LayerChallenges
  | _, 0 => none
  | count, fuel + 1 =>
    let guess := LayerChallenges.new layers count
    if partitions * guess.challenges_count_all < minimum_total_challenges then
      select_challenges_loop partitions minimum_total_challenges layers (count + 1) fuel
    else
      some guess

/-- `select_challenges` from `parameters.rs`: `count` starts at 1 and the
loop runs until the guess meets the minimum.  The Rust function returns
`Result` but only ever `Ok`; `none` here stands for divergence of the loop
(reachable only when `partitions = 0 < minimum_total_challenges`). -/
def select_challenges (partitions minimum_total_challenges layers : Nat) :
    Option LayerChallenges :=
  select_challenges_loop partitions minimum_total_challenges layers 1
    (minimum_total_challenges + 1)

theorem select_challenges_loop_some
    (partitions minimum_total_challenges layers : Nat) :
    ∀ fuel count,
      minimum_total_challenges ≤ partitions * (count + fuel) →
      ∃ lc, select_challenges_loop partitions minimum_total_challenges layers
        count (fuel + 1) = some lc := by
  intro fuel
  induction fuel with
  | zero =>
    intro count h
    rw [Nat.add_zero] at h
    refine ⟨LayerChallenges.new layers count, ?_⟩
    simp only [select_challenges_loop]
    rw [if_neg]
    simp only [LayerChallenges.challenges_count_all, LayerChallenges.new]
    exact Nat.not_lt.mpr h
  | succ n ih =>
    intro count h
    simp only [select_challenges_loop]
    by_cases hlt :
        partitions * (LayerChallenges.new layers count).challenges_count_all <
          minimum_total_challenges
    · rw [if_pos hlt]
      apply ih (count + 1)
      have harr : count + (n + 1) = (count + 1) + n := by omega
      rw [harr] at h
      exact h
    · rw [if_neg hlt]
      exact ⟨LayerChallenges.new layers count, rfl⟩

theorem select_challenges_loop_spec
    (partitions minimum_total_challenges layers : Nat) :
    ∀ fuel count lc,
      select_challenges_loop partitions minimum_total_challenges layers
        count fuel = some lc →
      lc.layers = layers ∧ count ≤ lc.max_count ∧
        minimum_total_challenges ≤ partitions * lc.max_count ∧
        ∀ c, count ≤ c → minimum_total_challenges ≤ partitions * c →
          lc.max_count ≤ c := by
  intro fuel
  induction fuel with
  | zero =>
    intro count lc h
    simp only [select_challenges_loop] at h
    exact absurd h (by simp)
  | succ n ih =>
    intro count lc h
    simp only [select_challenges_loop] at h
    by_cases hlt :
        partitions * (LayerChallenges.new layers count).challenges_count_all <
          minimum_total_challenges
    · rw [if_pos hlt] at h
      obtain ⟨h1, h2, h3, h4⟩ := ih (count + 1) lc h
      refine ⟨h1, by omega, h3, ?_⟩
      intro c hc hmc
      rcases Nat.lt_or_ge count c with hlt2 | hge
      · exact h4 c (by omega) hmc
      · exfalso
        have hce : c = count := by omega
        subst hce
        simp only [LayerChallenges.challenges_count_all, LayerChallenges.new] at hlt
        omega
    · rw [if_neg hlt] at h
      simp only [LayerChallenges.challenges_count_all, LayerChallenges.new] at hlt
      injection h with h
      subst h
      refine ⟨rfl, Nat.le_refl _, Nat.not_lt.mp hlt, ?_⟩
      intro c hc _
      exact hc

theorem select_challenges_some
    (partitions minimum_total_challenges layers : Nat)
    (hp : 1 ≤ partitions) :
    ∃ lc, select_challenges partitions minimum_total_challenges layers =
      some lc := by
  apply select_challenges_loop_some partitions minimum_total_challenges layers
    minimum_total_challenges 1
  have h1 : 1 + minimum_total_challenges ≤ partitions * (1 + minimum_total_challenges) :=
    Nat.le_mul_of_pos_left _ hp
  omega

/-- `PoStType` from `filecoin-proofs/src/types` (variant tag of a PoSt
configuration). -/
inductive PoStType where
  | Winning
  | Window
  deriving DecidableEq

/-- `PoStConfig` from `filecoin-proofs/src/types`: the caller-facing PoSt
configuration record `{typ, priority, challenge_count, sector_count,
sector_size}`. -/
structure PoStConfig where
  typ : PoStType
  priority : Bool
  challenge_count : Nat
  sector_count : Nat
  sector_size : Nat
  deriving DecidableEq

/-- Modelled from the spec: `PoStConfig::padded_sector_size` is defined in a
`types` submodule outside the visible sources; the spec says the PoSt setup
builders package "sector size (padded)", and the in-repo test
`test_winning_post_params` asserts that a config with `sector_size: 2048`
yields setup params with `sector_size = 2048`, so the method returns the
stored sector size unchanged. -/
def PoStConfig.padded_sector_size (cfg : PoStConfig) : Nat :=
  cfg.sector_size

/-- `storage_proofs::post::fallback::SetupParams` (the `WinningPostSetupParams`
/ `WindowPostSetupParams` alias targets): `{sector_size, challenge_count,
sector_count}`. -/
structure FallbackSetupParams where
  sector_size : Nat
  challenge_count : Nat
  sector_count : Nat
  deriving DecidableEq

/-- The two failure conditions of `winning_post_setup_params`, named as in the
spec; in the source both are `anyhow` errors raised by `ensure!` with the
messages "sector count must divide challenge count" and
"invald parameters calculated \x7b\x7d * \x7b\x7d != \x7b\x7d". -/
inductive PostSetupError where
  | indivisibleChallengeCount
  | internalInconsistency (a b c : Nat)
  deriving DecidableEq

/-- `winning_post_setup_params` from `parameters.rs`.  Rust `%` and `/` panic
on a zero divisor, so the zero cases are explicit `panic` outcomes; otherwise
the function follows the source line by line: the divisibility `ensure!`,
`param_sector_count = challenge_count / sector_count`,
`param_challenge_count = challenge_count / param_sector_count`, the
consistency `ensure!`, and the `Ok` record. -/
def winning_post_setup_params (post_config : PoStConfig) :
    Outcome PostSetupError FallbackSetupParams :=
  if post_config.sector_count = 0 then
    Outcome.panic "attempt to calculate the remainder with a divisor of zero"
  else if post_config.challenge_count % post_config.sector_count ≠ 0 then
    Outcome.err PostSetupError.indivisibleChallengeCount
  else
    let param_sector_count := post_config.challenge_count / post_config.sector_count
    if param_sector_count = 0 then
      Outcome.panic "attempt to divide by zero"
    else
      let param_challenge_count := post_config.challenge_count / param_sector_count
      if param_sector_count * param_challenge_count ≠ post_config.challenge_count then
        Outcome.err (PostSetupError.internalInconsistency param_sector_count
          param_challenge_count post_config.challenge_count)
      else
        Outcome.ok
          { sector_size := post_config.padded_sector_size
            challenge_count := param_challenge_count
            sector_count := param_sector_count }

theorem winning_factoring_exact (challenge_count sector_count : Nat)
    (hdvd : challenge_count % sector_count = 0) :
    (challenge_count / sector_count) *
      (challenge_count / (challenge_count / sector_count)) = challenge_count := by
  have hdvd' : sector_count ∣ challenge_count := Nat.dvd_of_mod_eq_zero hdvd
  have hq : sector_count * (challenge_count / sector_count) = challenge_count :=
    Nat.mul_div_cancel' hdvd'
  have hqdvd : (challenge_count / sector_count) ∣ challenge_count :=
    Nat.div_dvd_of_dvd hdvd'
  have h2 : (challenge_count / sector_count) *
      (challenge_count / (challenge_count / sector_count)) = challenge_count :=
    Nat.mul_div_cancel' hqdvd
  exact h2

theorem winning_post_setup_params_ok (post_config : PoStConfig)
    (hs : 0 < post_config.sector_count) (hc : 0 < post_config.challenge_count)
    (hdvd : post_config.challenge_count % post_config.sector_count = 0) :
    winning_post_setup_params post_config =
      Outcome.ok
        { sector_size := post_config.padded_sector_size
          challenge_count :=
            post_config.challenge_count /
              (post_config.challenge_count / post_config.sector_count)
          sector_count :=
            post_config.challenge_count / post_config.sector_count } := by
  have hq : 0 < post_config.challenge_count / post_config.sector_count := by
    apply Nat.div_pos _ hs
    exact Nat.le_of_dvd hc (Nat.dvd_of_mod_eq_zero hdvd)
  have hfac := winning_factoring_exact post_config.challenge_count
    post_config.sector_count hdvd
  unfold winning_post_setup_params
  rw [if_neg (by omega), if_neg (by simp [hdvd]), if_neg (by omega),
    if_neg (by simp [hfac])]

/-- Reduction modulo `2^32`, the width of a SHA-256 word. -/
def w32 (n : Nat) : Nat := n % 4294967296

/-- Right rotation of a 32-bit word by `s` places. -/
def rotr32 (s n : Nat) : Nat := n / 2 ^ s + n % 2 ^ s * 2 ^ (32 - s)

/-- Logical right shift of a 32-bit word by `s` places. -/
def shr32 (s n : Nat) : Nat := n / 2 ^ s

/-- Bitwise complement of a 32-bit word. -/
def not32 (n : Nat) : Nat := Nat.xor n 4294967295

/-- The 64 SHA-256 round constants (FIPS 180-4), written in decimal. -/
def sha256_k : List Nat :=
  [1116352408, 1899447441, 3049323471, 3921009573, 961987163,
   1508970993, 2453635748, 2870763221, 3624381080, 310598401,
   607225278, 1426881987, 1925078388, 2162078206, 2614888103,
   3248222580, 3835390401, 4022224774, 264347078, 604807628,
   770255983, 1249150122, 1555081692, 1996064986, 2554220882,
   2821834349, 2952996808, 3210313671, 3336571891, 3584528711,
   113926993, 338241895, 666307205, 773529912, 1294757372,
   1396182291, 1695183700, 1986661051, 2177026350, 2456956037,
   2730485921, 2820302411, 3259730800, 3345764771, 3516065817,
   3600352804, 4094571909, 275423344, 430227734, 506948616,
   659060556, 883997877, 958139571, 1322822218, 1537002063,
   1747873779, 1955562222, 2024104815, 2227730452, 2361852424,
   2428436474, 2756734187, 3204031479, 3329325298]

/-- The eight 32-bit words of a SHA-256 chaining state. -/
structure Hash8 where
  a : Nat
  b : Nat
  c : Nat
  d : Nat
  e : Nat
  f : Nat
  g : Nat
  h : Nat
  deriving DecidableEq

/-- The SHA-256 initial hash value (FIPS 180-4), written in decimal. -/
def sha256_h0 : Hash8 :=
  ⟨1779033703, 3144134277, 1013904242, 2773480762,
   1359893119, 2600822924, 528734635, 1541459225⟩

/-- SHA-256 message-schedule function `σ0`. -/
def smallSigma0 (x : Nat) : Nat :=
  Nat.xor (Nat.xor (rotr32 7 x) (rotr32 18 x)) (shr32 3 x)

/-- SHA-256 message-schedule function `σ1`. -/
def smallSigma1 (x : Nat) : Nat :=
  Nat.xor (Nat.xor (rotr32 17 x) (rotr32 19 x)) (shr32 10 x)

/-- SHA-256 compression function `Σ0`. -/
def bigSigma0 (x : Nat) : Nat :=
  Nat.xor (Nat.xor (rotr32 2 x) (rotr32 13 x)) (rotr32 22 x)

/-- SHA-256 compression function `Σ1`. -/
def bigSigma1 (x : Nat) : Nat :=
  Nat.xor (Nat.xor (rotr32 6 x) (rotr32 11 x)) (rotr32 25 x)

/-- Extend a 16-word message block by `n` further schedule words. -/
def extendSchedule : List Nat → Nat → List Nat
  | ws, 0 => ws
  | ws, n + 1 =>
    let t := ws.length
    let wnew := w32 (smallSigma1 (ws.getD (t - 2) 0) + ws.getD (t - 7) 0 +
      smallSigma0 (ws.getD (t - 15) 0) + ws.getD (t - 16) 0)
    extendSchedule (ws ++ [wnew]) n

/-- One SHA-256 round: `wk` is the pair (schedule word, round constant). -/
def sha256_round (st : Hash8) (wk : Nat × Nat) : Hash8 :=
  let ch := Nat.xor (Nat.land st.e st.f) (Nat.land (not32 st.e) st.g)
  let maj := Nat.xor (Nat.xor (Nat.land st.a st.b) (Nat.land st.a st.c))
    (Nat.land st.b st.c)
  let t1 := w32 (st.h + bigSigma1 st.e + ch + wk.2 + wk.1)
  let t2 := w32 (bigSigma0 st.a + maj)
  ⟨w32 (t1 + t2), st.a, st.b, st.c, w32 (st.d + t1), st.e, st.f, st.g⟩

/-- The SHA-256 compression function applied to one 16-word block. -/
def sha256_compress (st : Hash8) (block : List Nat) : Hash8 :=
  let w := extendSchedule block 48
  let fin := (w.zip sha256_k).foldl sha256_round st
  ⟨w32 (st.a + fin.a), w32 (st.b + fin.b), w32 (st.c + fin.c), w32 (st.d + fin.d),
   w32 (st.e + fin.e), w32 (st.f + fin.f), w32 (st.g + fin.g), w32 (st.h + fin.h)⟩

/-- Big-endian byte decomposition of `n` into `k` bytes. -/
def bytesBE : Nat → Nat → List Nat
  | 0, _ => []
  | k + 1, n => bytesBE k (n / 256) ++ [n % 256]

/-- Group a byte string into big-endian 32-bit words (four bytes per word). -/
def toWords : List Nat → List Nat
  | b0 :: b1 :: b2 :: b3 :: rest =>
    (((b0 * 256 + b1) * 256 + b2) * 256 + b3) :: toWords rest
  | _ => []

/-- SHA-256 padding: append `0x80`, zeros up to 56 mod 64 bytes, and the
64-bit big-endian bit length. -/
def padMessage (msg : List Nat) : List Nat :=
  msg ++ [128] ++ List.replicate ((119 - msg.length % 64) % 64) 0 ++
    bytesBE 8 (8 * msg.length)

/-- Fold the compression function over `n` consecutive 16-word blocks. -/
def processBlocks : Nat → Hash8 → List Nat → Hash8
  | 0, st, _ => st
  | n + 1, st, ws => processBlocks n (sha256_compress st (ws.take 16)) (ws.drop 16)

/-- Big-endian byte serialization of one 32-bit word. -/
def wordBytesBE (w : Nat) : List Nat :=
  [w / 16777216 % 256, w / 65536 % 256, w / 256 % 256, w % 256]

/-- Big-endian byte serialization of a SHA-256 chaining state: the digest. -/
def Hash8.toBytes (st : Hash8) : List Nat :=
  wordBytesBE st.a ++ wordBytesBE st.b ++ wordBytesBE st.c ++ wordBytesBE st.d ++
    wordBytesBE st.e ++ wordBytesBE st.f ++ wordBytesBE st.g ++ wordBytesBE st.h

/-- SHA-256 of a byte string, as a 32-byte digest. -/
def sha256 (msg : List Nat) : List Nat :=
  let ws := toWords (padMessage msg)
  (processBlocks (ws.length / 16) sha256_h0 ws).toBytes

/-- The incremental-hashing context of the `sha2` crate (`Sha256`): the bytes
absorbed so far. -/
structure Sha256Ctx where
  buf : List Nat
  deriving DecidableEq

/-- `Sha256::new()`. -/
def Sha256.new : Sha256Ctx := ⟨[]⟩

/-- `Sha256::chain(data)`: absorb more bytes. -/
def Sha256Ctx.chain (ctx : Sha256Ctx) (data : List Nat) : Sha256Ctx :=
  ⟨ctx.buf ++ data⟩

/-- `Sha256::result()`: the digest of everything absorbed. -/
def Sha256Ctx.result (ctx : Sha256Ctx) : List Nat :=
  sha256 ctx.buf

/-- `derive_porep_domain_seed` from `storage-proofs/core/src/crypto/mod.rs`:
`Sha256::new().chain(domain_separation_tag).chain(porep_id).result().into()`.
The tag is a `&str`; it is modelled by its UTF-8 bytes. -/
def derive_porep_domain_seed (domain_separation_tag porep_id : List Nat) :
    List Nat :=
  ((Sha256.new.chain domain_separation_tag).chain porep_id).result

/-- The `DRG_NONCE` constant of `parameters.rs`, byte for byte (note the
source really does contain `28, 30, 30, 31`: 29 is absent and 30 repeated). -/
def DRG_NONCE : List Nat :=
  [0, 1, 2, 3, 4, 5, 6, 7, 8, 9, 10, 11, 12, 13, 14, 15, 16, 17, 18, 19, 20,
   21, 22, 23, 24, 25, 26, 27, 28, 30, 30, 31]

/-- `drg_seed_from_porep_id` from `parameters.rs`: hash
`porep_id ‖ DRG_NONCE` and copy the first 28 digest bytes
(`drg_seed.copy_from_slice(&hash[..28])`) into the 28-byte seed. -/
def drg_seed_from_porep_id (porep_id : List Nat) : List Nat :=
  (((Sha256.new.chain porep_id).chain DRG_NONCE).result).take 28

theorem sha256_length (msg : List Nat) : (sha256 msg).length = 32 := by
  simp [sha256, Hash8.toBytes, wordBytesBE]

theorem chain_chain_result (xs ys : List Nat) :
    ((Sha256.new.chain xs).chain ys).result = sha256 (xs ++ ys) := by
  simp [Sha256.new, Sha256Ctx.chain, Sha256Ctx.result]

/-- The recoverable failure of `setup_params`, named as in the spec; in the
source it is the `anyhow` error raised by
`ensure!(sector_bytes % 32 == 0, ...)`. -/
inductive PorepSetupError where
  | invalidSectorSize (sector_bytes : Nat)
  deriving DecidableEq

/-- Modelled from the spec: the DRG graph degree is a fixed protocol-wide
constant defined in `constants.rs`, which is outside the visible sources;
no claim depends on its numeric value. -/
def DRG_DEGREE : Nat := 6

/-- Modelled from the spec: the DRG expansion degree is a fixed
protocol-wide constant defined in `constants.rs`, outside the visible
sources; no claim depends on its numeric value. -/
def EXP_DEGREE : Nat := 8

/-- `storage_proofs::porep::stacked::SetupParams` as assembled by
`setup_params`: `{nodes, degree, expansion_degree, seed, layer_challenges}`. -/
structure StackedSetupParams where
  nodes : Nat
  degree : Nat
  expansion_degree : Nat
  seed : List Nat
  layer_challenges : LayerChallenges
  deriving DecidableEq

/-- `setup_params` from `parameters.rs`.  The two policy tables
`POREP_MINIMUM_CHALLENGES` and `LAYERS` live in `constants.rs`, outside the
visible sources; the spec describes them as one process-wide read-only map
from sector size to (minimum challenges, layer count) and recommends passing
them in explicitly, so they are arguments here.  A failed `get` flows into
`.expect("unknown sector size")` — a panic — and both lookups happen inside
the argument list of the `select_challenges` call, i.e. before the
`ensure!(sector_bytes % 32 == 0)` check.  `Outcome.diverge` marks the case
in which the `select_challenges` loop never exits (`partitions = 0` with a
positive minimum). -/
def setup_params (porep_minimum_challenges layers_table : Nat → Option Nat)
    (sector_bytes partitions : Nat) (porep_id : List Nat) :
    Outcome PorepSetupError StackedSetupParams :=
  match porep_minimum_challenges sector_bytes with
  | none => Outcome.panic "unknown sector size"
  | some minimum_challenges =>
    match layers_table sector_bytes with
    | none => Outcome.panic "unknown sector size"
    | some layers =>
      match select_challenges partitions minimum_challenges layers with
      | none => Outcome.diverge
      | some layer_challenges =>
        if sector_bytes % 32 = 0 then
          Outcome.ok
            { nodes := sector_bytes / 32
              degree := DRG_DEGREE
              expansion_degree := EXP_DEGREE
              seed := drg_seed_from_porep_id porep_id
              layer_challenges := layer_challenges }
        else
          Outcome.err (PorepSetupError.invalidSectorSize sector_bytes)

/-- An example policy table for concrete evaluations of `setup_params`: only
the 2 KiB sector size (2048 bytes) is registered, with policy value 2. -/
def example_policy_table : Nat → Option Nat :=
  fun sector_size => if sector_size = 2048 then some 2 else none

/-- C1 (amended): for positive `partitions` and `layers` and any
`minimum_total_challenges`, `select_challenges` never fails and returns the
plan with the smallest per-layer count `c ≥ 1` such that
`partitions × c ≥ minimum_total_challenges` — the layer count does not enter
the bound — and per-layer count 1 when the minimum is 0. -/
theorem select_challenges_minimal
    (partitions minimum_total_challenges layers : Nat)
    (hp : 1 ≤ partitions) (hl : 1 ≤ layers) :
    ∃ lc, select_challenges partitions minimum_total_challenges layers = some lc ∧
      lc.layers = layers ∧ 1 ≤ lc.max_count ∧
      minimum_total_challenges ≤ partitions * lc.max_count ∧
      (∀ c, 1 ≤ c → minimum_total_challenges ≤ partitions * c → lc.max_count ≤ c) ∧
      (minimum_total_challenges = 0 → lc.max_count = 1) := by
  obtain ⟨lc, hlc⟩ :=
    select_challenges_some partitions minimum_total_challenges layers hp
  obtain ⟨h1, h2, h3, h4⟩ := select_challenges_loop_spec partitions
    minimum_total_challenges layers (minimum_total_challenges + 1) 1 lc hlc
  refine ⟨lc, hlc, h1, h2, h3, h4, ?_⟩
  intro hm
  have h5 := h4 1 (Nat.le_refl 1) (by omega)
  omega

/-- Witness for C1's amended theorem at `(2, 12, 11)`. -/
theorem select_challenges_minimal_witness :
    1 ≤ 2 ∧ 1 ≤ 11 ∧
      ∃ lc, select_challenges 2 12 11 = some lc ∧
        lc.layers = 11 ∧ 1 ≤ lc.max_count ∧ 12 ≤ 2 * lc.max_count ∧
        (∀ c, 1 ≤ c → 12 ≤ 2 * c → lc.max_count ≤ c) ∧
        (12 = 0 → lc.max_count = 1) :=
  ⟨by decide, by decide, select_challenges_minimal 2 12 11 (by decide) (by decide)⟩

/-- Counterexample to C1 as stated: at `(partitions, minimum, layers) =
(1, 12, 11)` the code returns per-layer count 12, although `c = 2` already
satisfies the claimed condition `partitions × layers × c ≥ minimum` and
`2 < 12`, so the returned count is not the smallest `c` for that condition. -/
theorem select_challenges_claimed_condition_counterexample :
    select_challenges 1 12 11 = some (LayerChallenges.new 11 12) ∧
      12 ≤ 1 * 11 * 2 ∧ (2 : Nat) < 12 := by decide

/-- C2 (amended): for positive `p, l` and any `m`, the plan returned by
`select_challenges p m l` satisfies `p × challenges_count_all ≥ m` (the bound
holds for the total across partitions, not for `challenges_count_all`
alone), and minimally so: with per-layer count one less the product would
drop below `m`. -/
theorem select_challenges_total_bound
    (partitions minimum_total_challenges layers : Nat)
    (hp : 1 ≤ partitions) (hl : 1 ≤ layers) :
    ∃ lc, select_challenges partitions minimum_total_challenges layers = some lc ∧
      minimum_total_challenges ≤ partitions * lc.challenges_count_all ∧
      (1 < lc.max_count →
        partitions * (lc.max_count - 1) < minimum_total_challenges) := by
  obtain ⟨lc, hlc⟩ :=
    select_challenges_some partitions minimum_total_challenges layers hp
  obtain ⟨h1, h2, h3, h4⟩ := select_challenges_loop_spec partitions
    minimum_total_challenges layers (minimum_total_challenges + 1) 1 lc hlc
  refine ⟨lc, hlc, h3, ?_⟩
  intro hgt
  by_contra hge
  push_neg at hge
  have h5 := h4 (lc.max_count - 1) (by omega) hge
  omega

/-- Witness for C2's amended theorem at `(1, 12, 11)`. -/
theorem select_challenges_total_bound_witness :
    1 ≤ 1 ∧ 1 ≤ 11 ∧
      ∃ lc, select_challenges 1 12 11 = some lc ∧
        12 ≤ 1 * lc.challenges_count_all ∧
        (1 < lc.max_count → 1 * (lc.max_count - 1) < 12) :=
  ⟨by decide, by decide,
    select_challenges_total_bound 1 12 11 (by decide) (by decide)⟩

/-- Counterexample to C2 as stated: at `(2, 12, 11)` the returned plan has
`challenges_count_all = 6 < 12 = m`, so the claimed bound
`challenges_count_all ≥ m` fails. -/
theorem select_challenges_total_bound_counterexample :
    (select_challenges 2 12 11).map LayerChallenges.challenges_count_all =
        some 6 ∧ (6 : Nat) < 12 := by decide

/-- C3 (amended): `select_challenges(1, 12, 11)` gives total challenge count
(`challenges_count_all`) 12, `select_challenges(2, 12, 11)` gives 6 — also for
the 2-partition configuration, whose partition count converts to 2 — and
`select_challenges(4, 12, 11)` gives 3; across partitions each case multiplies
back to 12. -/
theorem select_challenges_concrete_cases :
    (select_challenges 1 12 11).map LayerChallenges.challenges_count_all =
        some 12 ∧
      (select_challenges 2 12 11).map LayerChallenges.challenges_count_all =
        some 6 ∧
      (select_challenges 4 12 11).map LayerChallenges.challenges_count_all =
        some 3 ∧
      2 * 6 = 12 ∧ 4 * 3 = 12 := by decide

/-- Counterexample to C3 as stated: `select_challenges(2, 12, 11)` returns a
plan with total challenge count 6, not 12 (the claim even asserts both values
for this same input). -/
theorem select_challenges_concrete_cases_counterexample :
    (select_challenges 2 12 11).map LayerChallenges.challenges_count_all ≠
      some 12 := by decide

/-- C4 (amended): when `sector_bytes` is absent from either policy table,
`setup_params` panics with "unknown sector size" (a process abort, not a
recoverable error), and this lookup precedes the sector-size check; only when
both lookups succeed does a `sector_bytes` that is not a multiple of 32
produce the recoverable `InvalidSectorSize` error. -/
theorem setup_params_failure_modes
    (porep_minimum_challenges layers_table : Nat → Option Nat)
    (sector_bytes partitions : Nat) (porep_id : List Nat)
    (hp : 1 ≤ partitions) :
    (porep_minimum_challenges sector_bytes = none →
      setup_params porep_minimum_challenges layers_table sector_bytes
        partitions porep_id = Outcome.panic "unknown sector size") ∧
    (∀ m, porep_minimum_challenges sector_bytes = some m →
      layers_table sector_bytes = none →
      setup_params porep_minimum_challenges layers_table sector_bytes
        partitions porep_id = Outcome.panic "unknown sector size") ∧
    (∀ m l, porep_minimum_challenges sector_bytes = some m →
      layers_table sector_bytes = some l → sector_bytes % 32 ≠ 0 →
      setup_params porep_minimum_challenges layers_table sector_bytes
        partitions porep_id =
        Outcome.err (PorepSetupError.invalidSectorSize sector_bytes)) := by
  refine ⟨?_, ?_, ?_⟩
  · intro h
    simp [setup_params, h]
  · intro m hm hl
    simp [setup_params, hm, hl]
  · intro m l hm hl h32
    obtain ⟨lc, hlc⟩ := select_challenges_some partitions m l hp
    simp [setup_params, hm, hl, hlc, h32]

/-- Witness for C4's amended theorem with the example table, `sector_bytes =
33` and one partition. -/
theorem setup_params_failure_modes_witness :
    1 ≤ 1 ∧
      ((example_policy_table 33 = none →
        setup_params example_policy_table example_policy_table 33 1 [] =
          Outcome.panic "unknown sector size") ∧
      (∀ m, example_policy_table 33 = some m →
        example_policy_table 33 = none →
        setup_params example_policy_table example_policy_table 33 1 [] =
          Outcome.panic "unknown sector size") ∧
      (∀ m l, example_policy_table 33 = some m →
        example_policy_table 33 = some l → 33 % 32 ≠ 0 →
        setup_params example_policy_table example_policy_table 33 1 [] =
          Outcome.err (PorepSetupError.invalidSectorSize 33))) :=
  ⟨by decide,
    setup_params_failure_modes example_policy_table example_policy_table
      33 1 [] (by decide)⟩

/-- Counterexample to C4 as stated: with a policy table in which 33 is (as in
the deployed tables) not registered, `setup_params` at `sector_bytes = 33`
panics with "unknown sector size" instead of returning the recoverable
`InvalidSectorSize` error the claim promises for any non-multiple of 32. -/
theorem setup_params_recoverable_counterexample :
    setup_params example_policy_table example_policy_table 33 1 [] =
        Outcome.panic "unknown sector size" ∧
      setup_params example_policy_table example_policy_table 33 1 [] ≠
        Outcome.err (PorepSetupError.invalidSectorSize 33) := by decide

/-- C5: for positive counts, `winning_post_setup_params` fails with the
indivisible-challenge-count error exactly when `challenge_count` is not
evenly divisible by `sector_count`, and succeeds otherwise. -/
theorem winning_post_indivisible_iff (post_config : PoStConfig)
    (hs : 0 < post_config.sector_count)
    (hc : 0 < post_config.challenge_count) :
    (winning_post_setup_params post_config =
        Outcome.err PostSetupError.indivisibleChallengeCount ↔
      post_config.challenge_count % post_config.sector_count ≠ 0) ∧
    (post_config.challenge_count % post_config.sector_count = 0 →
      ∃ r, winning_post_setup_params post_config = Outcome.ok r) := by
  by_cases h : post_config.challenge_count % post_config.sector_count = 0
  · rw [winning_post_setup_params_ok post_config hs hc h]
    refine ⟨?_, fun _ => ⟨_, rfl⟩⟩
    simp [h]
  · have he : winning_post_setup_params post_config =
        Outcome.err PostSetupError.indivisibleChallengeCount := by
      unfold winning_post_setup_params
      rw [if_neg (by omega), if_pos h]
    rw [he]
    exact ⟨⟨fun _ => h, fun _ => rfl⟩, fun hd => absurd hd h⟩

/-- Witness for C5's theorem at the claim's example `challenge_count = 67`,
`sector_count = 2`. -/
theorem winning_post_indivisible_iff_witness :
    0 < (2 : Nat) ∧ 0 < (67 : Nat) ∧
      ((winning_post_setup_params
          { typ := PoStType.Winning, priority := false, challenge_count := 67,
            sector_count := 2, sector_size := 2048 } =
          Outcome.err PostSetupError.indivisibleChallengeCount ↔
        (67 : Nat) % 2 ≠ 0) ∧
      ((67 : Nat) % 2 = 0 →
        ∃ r, winning_post_setup_params
          { typ := PoStType.Winning, priority := false, challenge_count := 67,
            sector_count := 2, sector_size := 2048 } = Outcome.ok r)) :=
  ⟨by decide, by decide,
    winning_post_indivisible_iff
      { typ := PoStType.Winning, priority := false, challenge_count := 67,
        sector_count := 2, sector_size := 2048 } (by decide) (by decide)⟩

/-- C6: the configuration `{challenge_count: 66, sector_count: 1,
sector_size: 2048}` yields setup parameters `{sector_count: 66,
challenge_count: 1, sector_size: 2048}`. -/
theorem winning_post_round_trip :
    winning_post_setup_params
        { typ := PoStType.Winning, priority := false, challenge_count := 66,
          sector_count := 1, sector_size := 2048 } =
      Outcome.ok
        { sector_size := 2048, challenge_count := 1, sector_count := 66 } := by
  decide

/-- C7: whenever the divisibility precondition holds with positive counts,
the recomputed factoring multiplies back to `challenge_count` exactly, so the
internal-consistency error branch of `winning_post_setup_params` is
unreachable. -/
theorem winning_post_consistency_unreachable (post_config : PoStConfig)
    (hs : 0 < post_config.sector_count)
    (hc : 0 < post_config.challenge_count)
    (hdvd : post_config.challenge_count % post_config.sector_count = 0) :
    (post_config.challenge_count / post_config.sector_count) *
        (post_config.challenge_count /
          (post_config.challenge_count / post_config.sector_count)) =
      post_config.challenge_count ∧
    ∀ a b c, winning_post_setup_params post_config ≠
      Outcome.err (PostSetupError.internalInconsistency a b c) := by
  refine ⟨winning_factoring_exact _ _ hdvd, ?_⟩
  intro a b c h
  rw [winning_post_setup_params_ok post_config hs hc hdvd] at h
  exact Outcome.noConfusion h

/-- Witness for C7's theorem at the round-trip configuration. -/
theorem winning_post_consistency_unreachable_witness :
    0 < (1 : Nat) ∧ 0 < (66 : Nat) ∧ (66 : Nat) % 1 = 0 ∧
      ((66 : Nat) / 1 * (66 / (66 / 1)) = 66 ∧
      ∀ a b c, winning_post_setup_params
          { typ := PoStType.Winning, priority := false, challenge_count := 66,
            sector_count := 1, sector_size := 2048 } ≠
        Outcome.err (PostSetupError.internalInconsistency a b c)) :=
  ⟨by decide, by decide, by decide,
    winning_post_consistency_unreachable
      { typ := PoStType.Winning, priority := false, challenge_count := 66,
        sector_count := 1, sector_size := 2048 } (by decide) (by decide)
      (by decide)⟩

/-- C8 (amended): for every configuration with positive `sector_count` and
positive `challenge_count`, `winning_post_setup_params` either succeeds or
returns the indivisibility error — no panic is reachable there; the zero
cases, by contrast, hit a remainder or division by zero (see the
counterexample). -/
theorem winning_post_total_on_positive (post_config : PoStConfig)
    (hs : 0 < post_config.sector_count)
    (hc : 0 < post_config.challenge_count) :
    winning_post_setup_params post_config =
        Outcome.err PostSetupError.indivisibleChallengeCount ∨
      ∃ r, winning_post_setup_params post_config = Outcome.ok r := by
  by_cases h : post_config.challenge_count % post_config.sector_count = 0
  · exact Or.inr ⟨_, winning_post_setup_params_ok post_config hs hc h⟩
  · left
    unfold winning_post_setup_params
    rw [if_neg (by omega), if_pos h]

/-- Witness for C8's amended theorem at `challenge_count = 6`,
`sector_count = 3`. -/
theorem winning_post_total_on_positive_witness :
    0 < (3 : Nat) ∧ 0 < (6 : Nat) ∧
      (winning_post_setup_params
          { typ := PoStType.Winning, priority := false, challenge_count := 6,
            sector_count := 3, sector_size := 2048 } =
          Outcome.err PostSetupError.indivisibleChallengeCount ∨
        ∃ r, winning_post_setup_params
          { typ := PoStType.Winning, priority := false, challenge_count := 6,
            sector_count := 3, sector_size := 2048 } = Outcome.ok r) :=
  ⟨by decide, by decide,
    winning_post_total_on_positive
      { typ := PoStType.Winning, priority := false, challenge_count := 6,
        sector_count := 3, sector_size := 2048 } (by decide) (by decide)⟩

/-- Counterexample to C8 as stated: with `sector_count = 0` the remainder
operation panics, and with `challenge_count = 0` the recomputed
`param_sector_count` is 0 and the division panics —
`winning_post_setup_params` is not panic-free over all configurations. -/
theorem winning_post_total_counterexample :
    winning_post_setup_params
        { typ := PoStType.Winning, priority := false, challenge_count := 1,
          sector_count := 0, sector_size := 2048 } =
      Outcome.panic "attempt to calculate the remainder with a divisor of zero" ∧
    winning_post_setup_params
        { typ := PoStType.Winning, priority := false, challenge_count := 0,
          sector_count := 5, sector_size := 2048 } =
      Outcome.panic "attempt to divide by zero" := by
  exact ⟨rfl, rfl⟩

/-- C9: `derive_porep_domain_seed` returns exactly the full 32-byte SHA-256
digest of `tag ‖ porep_id` with no truncation, and `drg_seed_from_porep_id`
returns exactly the first 28 bytes of the SHA-256 digest of
`porep_id ‖ DRG_NONCE`; both are pure total functions of their byte inputs,
hence deterministic. -/
theorem seed_derivation_correct (domain_separation_tag porep_id : List Nat) :
    derive_porep_domain_seed domain_separation_tag porep_id =
        sha256 (domain_separation_tag ++ porep_id) ∧
      (derive_porep_domain_seed domain_separation_tag porep_id).length = 32 ∧
      drg_seed_from_porep_id porep_id =
        (sha256 (porep_id ++ DRG_NONCE)).take 28 ∧
      (drg_seed_from_porep_id porep_id).length = 28 := by
  refine ⟨chain_chain_result _ _, ?_, ?_, ?_⟩
  · unfold derive_porep_domain_seed
    rw [chain_chain_result]
    exact sha256_length _
  · unfold drg_seed_from_porep_id
    rw [chain_chain_result]
  · unfold drg_seed_from_porep_id
    rw [chain_chain_result, List.length_take, sha256_length]
    decide

/-- C10: for positive `partitions` and `layers` the search loop of
`select_challenges` terminates (the fuel supplied is provably sufficient),
and the quantity compared against the minimum is strictly increasing in the
per-layer count. -/
theorem select_challenges_terminating
    (partitions minimum_total_challenges layers : Nat)
    (hp : 1 ≤ partitions) (hl : 1 ≤ layers) :
    (∃ lc, select_challenges partitions minimum_total_challenges layers =
      some lc) ∧
    ∀ c, partitions * (LayerChallenges.new layers c).challenges_count_all <
      partitions * (LayerChallenges.new layers (c + 1)).challenges_count_all := by
  refine ⟨select_challenges_some _ _ _ hp, ?_⟩
  intro c
  simp only [LayerChallenges.challenges_count_all, LayerChallenges.new]
  have h : partitions * (c + 1) = partitions * c + partitions :=
    Nat.mul_succ partitions c
  omega

/-- Witness for C10's theorem at `(3, 7, 2)`. -/
theorem select_challenges_terminating_witness :
    1 ≤ 3 ∧ 1 ≤ 2 ∧
      ((∃ lc, select_challenges 3 7 2 = some lc) ∧
      ∀ c, 3 * (LayerChallenges.new 2 c).challenges_count_all <
        3 * (LayerChallenges.new 2 (c + 1)).challenges_count_all) :=
  ⟨by decide, by decide,
    select_challenges_terminating 3 7 2 (by decide) (by decide)⟩

end FilProofs
